import Mathlib

/-!
Verification of the usage-metadata translator in
`src/Antigravity-Manager/src-tauri/src/proxy/mappers/claude/utils.rs`.

Embedding conventions:
* token counts and the context limit are natural numbers;
* the Rust `f64` arithmetic is modelled by exact rational arithmetic on `ℚ`
  (all constants appearing in the code — 0.5, 0.6, 0.2, 0.3, 0.7, 0.15, 0.85,
  0.27, 0.97, 195000.0 — are decimal literals, read exactly into `ℚ`);
* the Rust `as u32` cast from a floating value, which truncates toward zero,
  is modelled on the non-negative values arising here by `Int.floor` followed
  by `Int.toNat`;
* IEEE division of a positive value by zero yields `+∞`, which fails each of
  the three `ratio <= c` tests and lands in the fourth segment, where the
  `min` clamp turns it into `0.97`; the embedding of `scale` makes that
  branch explicit for `context_limit = 0`.
-/

namespace AntiBridge

/-- Modelled from the spec: the `RawUsage` record (the Rust struct
`UsageMetadata` lives in `super::models`, which is not among the provided
sources).  Four optional non-negative integer fields: prompt, output
(candidates), total, and cached-content token counts. -/
structure UsageMetadata where
  prompt_token_count : Option ℕ
  candidates_token_count : Option ℕ
  total_token_count : Option ℕ
  cached_content_token_count : Option ℕ
deriving DecidableEq

/-- Modelled from the spec: the `TranslatedUsage` record (the Rust struct
`Usage` lives in `super::models`, which is not among the provided sources).
`server_tool_use` is never populated, so its payload type is irrelevant and
is modelled as `Unit`. -/
structure Usage where
  input_tokens : ℕ
  output_tokens : ℕ
  cache_read_input_tokens : Option ℕ
  cache_creation_input_tokens : Option ℕ
  server_tool_use : Option Unit
deriving DecidableEq

/- ------------------------------------------------------------------ -/
/- Context limit resolver                                              -/
/- ------------------------------------------------------------------ -/

/-- Does the char list start with the given pattern?  Building block for the
substring search modelling Rust `str::contains`. -/
def listStartsWith : List Char → List Char → Bool
  | _, [] => true
  | [], _ :: _ => false
  | a :: as, b :: bs => a == b && listStartsWith as bs

/-- Substring containment on char lists: some suffix of the haystack starts
with the needle. -/
def listContainsSub : List Char → List Char → Bool
  | [], needle => listStartsWith [] needle
  | a :: t, needle => listStartsWith (a :: t) needle || listContainsSub t needle

/-- Rust `str::contains` with a string pattern (case-sensitive byte-level
substring search; for the ASCII needles used here byte-level containment in
UTF-8 coincides with character-level containment). -/
def strContainsSub (haystack pat : String) : Bool :=
  listContainsSub haystack.toList pat.toList

/-- The needle checked first by `get_context_limit_for_model`. -/
def proPat : String := "pro"

/-- The needle checked second by `get_context_limit_for_model`. -/
def flashPat : String := "flash"

/-- Translation of `get_context_limit_for_model` from `utils.rs`. -/
def get_context_limit_for_model (model : String) : ℕ :=
  if strContainsSub model proPat then
    2097152
  else if strContainsSub model flashPat then
    1048576
  else
    1048576

/-- Propositional form of substring containment: the haystack splits as
`pre ++ pat ++ post`. -/
def ContainsSub (haystack pat : String) : Prop :=
  ∃ pre post, haystack.toList = pre ++ pat.toList ++ post

/-- A sample model identifier matching the first branch of the resolver. -/
def geminiPro : String := "gemini-2.5-pro"

/-- A sample model identifier matching the second branch of the resolver. -/
def geminiFlash : String := "gemini-2.0-flash"

/-- A sample model identifier matching no branch of the resolver. -/
def otherModel : String := "claude-sonnet"

/- ------------------------------------------------------------------ -/
/- Usage scaler                                                        -/
/- ------------------------------------------------------------------ -/

/-- Constant `SCALING_THRESHOLD` from `to_claude_usage`: prompts of at most 30000
tokens are passed through unscaled. -/
def SCALING_THRESHOLD : ℕ := 30000

/-- Constant `TARGET_MAX` from `to_claude_usage`: the client-visible maximum the
scaler targets. -/
def TARGET_MAX : ℚ := 195000

/-- The four-segment piecewise-linear remapping of the raw usage ratio to
the client-visible display ratio, translated from the `if ratio <= 0.5 …`
chain inside `to_claude_usage`; the fourth segment carries the code's
`display_ratio.min(0.97)` clamp. -/
def displayRatio (ratio : ℚ) : ℚ :=
  if ratio ≤ 0.5 then
    ratio * 0.6
  else if ratio ≤ 0.7 then
    let progress := (ratio - 0.5) / 0.2
    0.3 + progress * 0.2
  else if ratio ≤ 0.85 then
    let progress := (ratio - 0.7) / 0.15
    0.5 + progress * 0.2
  else
    let progress := (ratio - 0.85) / 0.15
    min (0.7 + progress * 0.27) 0.97

/-- The scaled total computed inside `to_claude_usage` (the spec's
`scale(raw_prompt_tokens, context_limit, scaling_enabled)` contract).  The
`context_limit = 0` branch spells out the IEEE behaviour of the code there:
`ratio = +∞` falls into the fourth segment and is clamped to `0.97`. -/
def scale (total_raw : ℕ) (context_limit : ℕ) (scaling_enabled : Bool) : ℕ :=
  if scaling_enabled = true ∧ SCALING_THRESHOLD < total_raw then
    if context_limit = 0 then
      (Int.floor ((0.97 : ℚ) * TARGET_MAX)).toNat
    else
      (Int.floor (displayRatio ((total_raw : ℚ) / (context_limit : ℚ)) * TARGET_MAX)).toNat
  else
    total_raw

/-- The saturation bound of the Rust float-to-`u32` `as` cast:
`u32::MAX = 2^32 - 1`. -/
def U32_MAX : ℕ := 4294967295

/-- Translation of `to_claude_usage` from `utils.rs`.  The debug-logging
block is behaviourally inert and is not modelled.  `saturating_sub` on
natural numbers is exactly truncated subtraction `-` on `ℕ`.  The
`sc_cache` float-to-`u32` cast saturates at `u32::MAX`, modelled by the
`min _ U32_MAX` (the cast inside `scale` needs no such clamp: its value is
bounded by 189150 in the scaling branch). -/
def to_claude_usage (usage_metadata : UsageMetadata) (scaling_enabled : Bool)
    (context_limit : ℕ) : Usage :=
  let prompt_tokens := usage_metadata.prompt_token_count.getD 0
  let cached_tokens := usage_metadata.cached_content_token_count.getD 0
  let total_raw := prompt_tokens
  let scaled_total := scale total_raw context_limit scaling_enabled
  let reported : ℕ × Option ℕ :=
    if 0 < total_raw then
      let cache_ratio : ℚ := (cached_tokens : ℚ) / (total_raw : ℚ)
      let sc_cache :=
        min ((Int.floor ((scaled_total : ℚ) * cache_ratio)).toNat) U32_MAX
      (scaled_total - sc_cache, some sc_cache)
    else
      (scaled_total, none)
  { input_tokens := reported.1
    output_tokens := usage_metadata.candidates_token_count.getD 0
    cache_read_input_tokens := reported.2
    cache_creation_input_tokens := some 0
    server_tool_use := none }

/-- The display-ratio table exactly as the specification writes it: segment
conditions as intervals of the ratio, the clamp written `min 0.97 (…)`. -/
def spec_display_ratio (ratio : ℚ) : ℚ :=
  if 0 ≤ ratio ∧ ratio ≤ 0.5 then
    ratio * 0.6
  else if 0.5 < ratio ∧ ratio ≤ 0.7 then
    0.3 + ((ratio - 0.5) / 0.2) * 0.2
  else if 0.7 < ratio ∧ ratio ≤ 0.85 then
    0.5 + ((ratio - 0.7) / 0.15) * 0.2
  else
    min 0.97 (0.7 + ((ratio - 0.85) / 0.15) * 0.27)

/- ------------------------------------------------------------------ -/
/- Helper lemmas                                                       -/
/- ------------------------------------------------------------------ -/

/-- Closed form of `displayRatio` with the intermediate `progress`
bindings reduced away. -/
lemma displayRatio_def (r : ℚ) :
    displayRatio r =
      if r ≤ 0.5 then r * 0.6
      else if r ≤ 0.7 then 0.3 + ((r - 0.5) / 0.2) * 0.2
      else if r ≤ 0.85 then 0.5 + ((r - 0.7) / 0.15) * 0.2
      else min (0.7 + ((r - 0.85) / 0.15) * 0.27) 0.97 := rfl

set_option maxHeartbeats 1000000 in
/-- The piecewise display-ratio map is monotone on all of `ℚ`. -/
lemma displayRatio_mono {x y : ℚ} (hxy : x ≤ y) :
    displayRatio x ≤ displayRatio y := by
  rw [displayRatio_def, displayRatio_def]
  simp only [min_def]
  split_ifs <;> (ring_nf at *; try linarith)

set_option maxHeartbeats 1000000 in
/-- The display ratio never exceeds the clamp value `0.97`. -/
lemma displayRatio_le (r : ℚ) : displayRatio r ≤ 0.97 := by
  rw [displayRatio_def]
  simp only [min_def]
  split_ifs <;> (ring_nf at *; try linarith)

/-- On non-negative ratios the code's branch chain computes the same value
as the specification's segment table. -/
lemma displayRatio_eq_spec {r : ℚ} (hr : 0 ≤ r) :
    displayRatio r = spec_display_ratio r := by
  rw [displayRatio_def]
  unfold spec_display_ratio
  rcases le_or_lt r 0.5 with h1 | h1
  · rw [if_pos h1, if_pos (⟨hr, h1⟩ : _ ∧ _)]
  · have hn1 : ¬(r ≤ (0.5 : ℚ)) := not_le.mpr h1
    have hn1a : ¬((0 : ℚ) ≤ r ∧ r ≤ 0.5) := fun hc => hn1 hc.2
    rcases le_or_lt r 0.7 with h2 | h2
    · rw [if_neg hn1, if_pos h2, if_neg hn1a, if_pos (⟨h1, h2⟩ : _ ∧ _)]
    · have hn2 : ¬(r ≤ (0.7 : ℚ)) := not_le.mpr h2
      have hn2a : ¬((0.5 : ℚ) < r ∧ r ≤ 0.7) := fun hc => hn2 hc.2
      rcases le_or_lt r 0.85 with h3 | h3
      · rw [if_neg hn1, if_neg hn2, if_pos h3, if_neg hn1a, if_neg hn2a,
          if_pos (⟨h2, h3⟩ : _ ∧ _)]
      · have hn3 : ¬(r ≤ (0.85 : ℚ)) := not_le.mpr h3
        have hn3a : ¬((0.7 : ℚ) < r ∧ r ≤ 0.85) := fun hc => hn3 hc.2
        rw [if_neg hn1, if_neg hn2, if_neg hn3, if_neg hn1a, if_neg hn2a,
          if_neg hn3a]
        exact min_comm _ _

/-- Behaviour of `scale` in the passthrough branch: scaling disabled, or the raw total at
or below the threshold. -/
lemma scale_eq_passthrough {raw limit : ℕ} {e : Bool}
    (h : e = false ∨ raw ≤ SCALING_THRESHOLD) : scale raw limit e = raw := by
  unfold scale
  rw [if_neg]
  rintro ⟨he, hlt⟩
  rcases h with h | h
  · rw [h] at he
    exact Bool.false_ne_true he
  · omega

/-- Behaviour of `scale` in the scaling branch with a non-zero context limit. -/
lemma scale_eq_scaled {raw limit : ℕ} (h : SCALING_THRESHOLD < raw)
    (hl : limit ≠ 0) :
    scale raw limit true
      = (Int.floor (displayRatio ((raw : ℚ) / (limit : ℚ)) * TARGET_MAX)).toNat := by
  unfold scale
  rw [if_pos ⟨rfl, h⟩, if_neg hl]

/-- Behaviour of `scale` in the scaling branch with a zero context limit:
`⌊0.97 * 195000⌋ = 189150`. -/
lemma scale_limit_zero {raw : ℕ} (h : SCALING_THRESHOLD < raw) :
    scale raw 0 true = 189150 := by
  unfold scale
  rw [if_pos ⟨rfl, h⟩, if_pos rfl]
  norm_num [TARGET_MAX]
  rfl

/-- The truncated cache component never exceeds the scaled total when the
cached count is at most the prompt count. -/
lemma floor_mul_div_le (s c t : ℕ) (hct : c ≤ t) (ht : 0 < t) :
    (Int.floor ((s : ℚ) * ((c : ℚ) / (t : ℚ)))).toNat ≤ s := by
  have htq : (0 : ℚ) < (t : ℚ) := by exact_mod_cast ht
  have h1 : (c : ℚ) / (t : ℚ) ≤ 1 := by
    rw [div_le_one htq]
    exact_mod_cast hct
  have h2 : (s : ℚ) * ((c : ℚ) / (t : ℚ)) ≤ (s : ℚ) := by
    have hs : (0 : ℚ) ≤ (s : ℚ) := by positivity
    nlinarith
  have h3 : Int.floor ((s : ℚ) * ((c : ℚ) / (t : ℚ))) ≤ (s : ℤ) := by
    calc Int.floor ((s : ℚ) * ((c : ℚ) / (t : ℚ)))
        ≤ Int.floor ((s : ℚ)) := Int.floor_mono h2
      _ = (s : ℤ) := Int.floor_natCast s
  exact Int.toNat_le.mpr h3

/-- Lemma: `listStartsWith` decides the existence of a completing suffix. -/
lemma listStartsWith_iff (h n : List Char) :
    listStartsWith h n = true ↔ ∃ t, h = n ++ t := by
  induction n generalizing h with
  | nil =>
    simp [listStartsWith]
  | cons b bs ih =>
    cases h with
    | nil => simp [listStartsWith]
    | cons a as =>
      simp only [listStartsWith, Bool.and_eq_true, beq_iff_eq, ih, List.cons_append]
      constructor
      · rintro ⟨rfl, t, rfl⟩
        exact ⟨t, rfl⟩
      · rintro ⟨t, ht⟩
        injection ht with h1 h2
        exact ⟨h1, t, h2⟩

/-- Lemma: `listContainsSub` decides the existence of a `pre ++ needle ++ post`
split of the haystack. -/
lemma listContainsSub_iff (h n : List Char) :
    listContainsSub h n = true ↔ ∃ pre post, h = pre ++ n ++ post := by
  induction h with
  | nil =>
    rw [listContainsSub, listStartsWith_iff]
    constructor
    · rintro ⟨t, ht⟩
      exact ⟨[], t, ht⟩
    · rintro ⟨pre, post, hsplit⟩
      have h1 := List.append_eq_nil.mp hsplit.symm
      have h2 := List.append_eq_nil.mp h1.1
      exact ⟨post, by rw [h2.2, List.nil_append, h1.2]⟩
  | cons a t ih =>
    rw [listContainsSub, Bool.or_eq_true, listStartsWith_iff, ih]
    constructor
    · rintro (⟨post, hpost⟩ | ⟨pre, post, hsplit⟩)
      · exact ⟨[], post, hpost⟩
      · exact ⟨a :: pre, post, by rw [List.cons_append, List.cons_append, ← hsplit]⟩
    · rintro ⟨pre, post, hsplit⟩
      cases pre with
      | nil =>
        left
        exact ⟨post, by simpa using hsplit⟩
      | cons x xs =>
        right
        rw [List.cons_append, List.cons_append] at hsplit
        injection hsplit with h1 h2
        exact ⟨xs, post, h2⟩

/-- The executable `strContainsSub` agrees with the propositional
`ContainsSub`. -/
lemma strContainsSub_iff (s pat : String) :
    strContainsSub s pat = true ↔ ContainsSub s pat :=
  listContainsSub_iff s.toList pat.toList

/- ------------------------------------------------------------------ -/
/- Claim theorems                                                      -/
/- ------------------------------------------------------------------ -/

/-- C1 (counterexample): as stated, monotonicity of `scale` in the raw
prompt tokens fails across the 30000-token passthrough threshold: with
`context_limit = 1048576` and scaling enabled, `scale 30000 = 30000` by
passthrough while `scale 30001 = 3347` by the aggressive first segment. -/
theorem scale_monotone_counterexample :
    ¬(scale 30000 1048576 true ≤ scale 30001 1048576 true) := by
  have h1 : scale 30000 1048576 true = 30000 := by
    norm_num [scale, SCALING_THRESHOLD]
  have h2 : scale 30001 1048576 true = 3347 := by
    norm_num [scale, SCALING_THRESHOLD, TARGET_MAX, displayRatio]
    rfl
  rw [h1, h2]
  omega

/-- C1 (amended): for a fixed `context_limit` and `scaling_enabled = true`,
`scale` is non-decreasing in `raw_prompt_tokens` on each side of the
30000-token passthrough threshold (but not across it). -/
theorem scale_monotone_same_side (a b context_limit : ℕ) (hab : a ≤ b)
    (hside : b ≤ 30000 ∨ 30000 < a) :
    scale a context_limit true ≤ scale b context_limit true := by
  rcases hside with hb | ha
  · rw [scale_eq_passthrough
        (Or.inr (by simp only [SCALING_THRESHOLD]; omega : a ≤ SCALING_THRESHOLD)),
      scale_eq_passthrough
        (Or.inr (by simp only [SCALING_THRESHOLD]; omega : b ≤ SCALING_THRESHOLD))]
    exact hab
  · have hbthr : SCALING_THRESHOLD < b := by simp only [SCALING_THRESHOLD]; omega
    have hathr : SCALING_THRESHOLD < a := by simp only [SCALING_THRESHOLD]; omega
    by_cases hc : context_limit = 0
    · subst hc
      rw [scale_limit_zero hathr, scale_limit_zero hbthr]
    · rw [scale_eq_scaled hathr hc, scale_eq_scaled hbthr hc]
      have hcq : (0 : ℚ) < (context_limit : ℚ) := by
        exact_mod_cast Nat.pos_of_ne_zero hc
      have hr : (a : ℚ) / (context_limit : ℚ) ≤ (b : ℚ) / (context_limit : ℚ) :=
        (div_le_div_iff_of_pos_right hcq).mpr (by exact_mod_cast hab)
      have hd : displayRatio ((a : ℚ) / (context_limit : ℚ)) * TARGET_MAX
          ≤ displayRatio ((b : ℚ) / (context_limit : ℚ)) * TARGET_MAX :=
        mul_le_mul_of_nonneg_right (displayRatio_mono hr) (by norm_num [TARGET_MAX])
      exact Int.toNat_le_toNat (Int.floor_mono hd)

/-- C1 witness for the amended statement, at `a = 40000`, `b = 50000`,
`context_limit = 1000000`. -/
theorem scale_monotone_same_side_witness :
    40000 ≤ 50000 ∧ (50000 ≤ 30000 ∨ 30000 < 40000) ∧
      scale 40000 1000000 true ≤ scale 50000 1000000 true :=
  ⟨by decide, Or.inr (by decide),
    scale_monotone_same_side 40000 50000 1000000 (by decide) (Or.inr (by decide))⟩

/-- C2 (counterexample): conservation
`input_tokens + (cache_read_tokens or 0) = scaled_total` fails when the raw
cached count exceeds the raw prompt count: with prompt 1, cached 2, the
cache component is `⌊1 * (2/1)⌋ = 2`, the saturating subtraction floors the
input component at 0, and `0 + 2 ≠ 1`. -/
theorem conservation_counterexample :
    ¬((to_claude_usage ⟨some 1, none, none, some 2⟩ false 1000000).input_tokens
      + ((to_claude_usage ⟨some 1, none, none, some 2⟩ false
          1000000).cache_read_input_tokens.getD 0)
      = scale 1 1000000 false) := by
  have hs : scale 1 1000000 false = 1 := by
    norm_num [scale, SCALING_THRESHOLD]
  have hu : (to_claude_usage ⟨some 1, none, none, some 2⟩ false 1000000).input_tokens
      = 0 := by
    norm_num [to_claude_usage, scale, SCALING_THRESHOLD]
    decide
  have hc : (to_claude_usage ⟨some 1, none, none, some 2⟩ false
      1000000).cache_read_input_tokens = some 2 := by
    norm_num [to_claude_usage, scale, SCALING_THRESHOLD]
    rfl
  rw [hs, hu, hc]
  decide

/-- C2 (amended): whenever the raw cached count is at most the raw prompt
count — the only situation the data model intends, cached tokens being a
subset of prompt tokens — every output of `to_claude_usage` satisfies
`input_tokens + (cache_read_tokens or 0) = scaled_total`. -/
theorem to_claude_usage_conservation (m : UsageMetadata) (e : Bool) (limit : ℕ)
    (h : m.cached_content_token_count.getD 0 ≤ m.prompt_token_count.getD 0) :
    (to_claude_usage m e limit).input_tokens
      + ((to_claude_usage m e limit).cache_read_input_tokens.getD 0)
      = scale (m.prompt_token_count.getD 0) limit e := by
  unfold to_claude_usage
  by_cases hp : 0 < m.prompt_token_count.getD 0
  · simp only [if_pos hp]
    exact Nat.sub_add_cancel
      (le_trans (min_le_left _ _)
        (floor_mul_div_le (scale (m.prompt_token_count.getD 0) limit e)
          (m.cached_content_token_count.getD 0) (m.prompt_token_count.getD 0)
          h hp))
  · simp only [if_neg hp, Option.getD_none, Nat.add_zero]

/-- C2 witness for the amended statement, at prompt 100, cached 40,
output 50, total 150, scaling enabled, limit 1000000. -/
theorem to_claude_usage_conservation_witness :
    ((⟨some 100, some 50, some 150, some 40⟩ :
        UsageMetadata).cached_content_token_count.getD 0
      ≤ (⟨some 100, some 50, some 150, some 40⟩ :
        UsageMetadata).prompt_token_count.getD 0) ∧
    (to_claude_usage ⟨some 100, some 50, some 150, some 40⟩ true
        1000000).input_tokens
      + ((to_claude_usage ⟨some 100, some 50, some 150, some 40⟩ true
          1000000).cache_read_input_tokens.getD 0)
      = scale ((⟨some 100, some 50, some 150, some 40⟩ :
          UsageMetadata).prompt_token_count.getD 0) 1000000 true :=
  ⟨by decide,
    to_claude_usage_conservation ⟨some 100, some 50, some 150, some 40⟩ true
      1000000 (by decide)⟩

/-- C3: whenever scaling is applied (`scaling_enabled = true` and the raw
total above 30000), the scaled total is bounded by
`⌊0.97 * 195000⌋ = 189150`, for every raw count and every context limit
(zero included). -/
theorem scale_upper_bound (raw limit : ℕ) (h : 30000 < raw) :
    scale raw limit true ≤ 189150 := by
  by_cases hl : limit = 0
  · subst hl
    rw [scale_limit_zero
      (by simp only [SCALING_THRESHOLD]; omega : SCALING_THRESHOLD < raw)]
  · rw [scale_eq_scaled
      (by simp only [SCALING_THRESHOLD]; omega : SCALING_THRESHOLD < raw) hl]
    have h1 : displayRatio ((raw : ℚ) / (limit : ℚ)) * TARGET_MAX
        ≤ (189150 : ℚ) := by
      have h2 := displayRatio_le ((raw : ℚ) / (limit : ℚ))
      calc displayRatio ((raw : ℚ) / (limit : ℚ)) * TARGET_MAX
          ≤ 0.97 * TARGET_MAX :=
            mul_le_mul_of_nonneg_right h2 (by norm_num [TARGET_MAX])
        _ = 189150 := by norm_num [TARGET_MAX]
    refine Int.toNat_le.mpr ?_
    calc Int.floor (displayRatio ((raw : ℚ) / (limit : ℚ)) * TARGET_MAX)
        ≤ Int.floor ((189150 : ℚ)) := Int.floor_mono h1
      _ = (189150 : ℤ) := by norm_num

/-- C3 witness at `raw = 1000000`, `limit = 1000000`. -/
theorem scale_upper_bound_witness :
    30000 < 1000000 ∧ scale 1000000 1000000 true ≤ 189150 :=
  ⟨by decide, scale_upper_bound 1000000 1000000 (by decide)⟩

/-- C4: the passthrough gate — if scaling is disabled, or the raw total is
at most 30000, the scaled total is the raw total unchanged, for every
context limit. -/
theorem scale_passthrough (raw limit : ℕ) (e : Bool)
    (h : e = false ∨ raw ≤ 30000) : scale raw limit e = raw :=
  scale_eq_passthrough h

/-- C4 witness at `raw = 100`, scaling enabled, `limit = 1000000`. -/
theorem scale_passthrough_witness :
    ((true = false) ∨ (100 ≤ 30000)) ∧ scale 100 1000000 true = 100 :=
  ⟨Or.inr (by decide), scale_passthrough 100 1000000 true (Or.inr (by decide))⟩

/-- C5: `get_context_limit_for_model` is a total function with fixed
priority: any identifier containing `"pro"` maps to 2097152 regardless of
other substrings; any identifier containing `"flash"` but not `"pro"` maps
to 1048576; every other identifier maps to the default 1048576. -/
theorem get_context_limit_for_model_cases (model : String) :
    (ContainsSub model proPat → get_context_limit_for_model model = 2097152) ∧
    (ContainsSub model flashPat ∧ ¬ContainsSub model proPat →
      get_context_limit_for_model model = 1048576) ∧
    (¬ContainsSub model proPat ∧ ¬ContainsSub model flashPat →
      get_context_limit_for_model model = 1048576) := by
  unfold get_context_limit_for_model
  refine ⟨fun h => ?_, fun h => ?_, fun h => ?_⟩
  · rw [if_pos ((strContainsSub_iff model proPat).mpr h)]
  · rw [if_neg (fun hc => h.2 ((strContainsSub_iff model proPat).mp hc)),
      if_pos ((strContainsSub_iff model flashPat).mpr h.1)]
  · rw [if_neg (fun hc => h.1 ((strContainsSub_iff model proPat).mp hc)),
      if_neg (fun hc => h.2 ((strContainsSub_iff model flashPat).mp hc))]

/-- C5 witness at the identifier `"gemini-2.5-pro"`. -/
theorem get_context_limit_for_model_cases_witness :
    ContainsSub geminiPro proPat ∧
      get_context_limit_for_model geminiPro = 2097152 := by
  have h : ContainsSub geminiPro proPat :=
    ⟨("gemini-2.5-").toList, [], by decide⟩
  exact ⟨h, (get_context_limit_for_model_cases geminiPro).1 h⟩

/-- C6: when scaling is applied with a positive context limit, the scaled
total equals the truncation toward zero of `display_ratio * 195000`, where
`display_ratio` is the specification's four-segment table of
`ratio = raw / limit` (no clamp on the input ratio); and the adjacent
segment formulas agree at the shared breakpoints 0.5, 0.7 and 0.85 with
values 0.3, 0.5 and 0.7. -/
theorem scale_eq_spec_display (raw limit : ℕ) (h1 : 30000 < raw)
    (h2 : 0 < limit) :
    scale raw limit true
      = (Int.floor (spec_display_ratio ((raw : ℚ) / (limit : ℚ)) * 195000)).toNat ∧
    ((0.5 : ℚ) * 0.6 = 0.3 ∧ (0.3 : ℚ) + ((0.5 - 0.5) / 0.2) * 0.2 = 0.3) ∧
    ((0.3 : ℚ) + ((0.7 - 0.5) / 0.2) * 0.2 = 0.5 ∧
      (0.5 : ℚ) + ((0.7 - 0.7) / 0.15) * 0.2 = 0.5) ∧
    ((0.5 : ℚ) + ((0.85 - 0.7) / 0.15) * 0.2 = 0.7 ∧
      min (0.97 : ℚ) (0.7 + ((0.85 - 0.85) / 0.15) * 0.27) = 0.7) := by
  refine ⟨?_, ⟨by norm_num, by norm_num⟩, ⟨by norm_num, by norm_num⟩,
    ⟨by norm_num, ?_⟩⟩
  · rw [scale_eq_scaled (by simp only [SCALING_THRESHOLD]; omega)
      (Nat.pos_iff_ne_zero.mp h2)]
    have hr : (0 : ℚ) ≤ (raw : ℚ) / (limit : ℚ) := by positivity
    rw [displayRatio_eq_spec hr]
    rfl
  · rw [show (0.7 : ℚ) + ((0.85 - 0.85) / 0.15) * 0.27 = 0.7 by norm_num,
      min_eq_right (by norm_num : (0.7 : ℚ) ≤ 0.97)]

/-- C6 witness at `raw = 500000`, `limit = 1000000` (the first conjunct of
the applied theorem). -/
theorem scale_eq_spec_display_witness :
    30000 < 500000 ∧ 0 < 1000000 ∧
      scale 500000 1000000 true
        = (Int.floor (spec_display_ratio (((500000 : ℕ) : ℚ) / ((1000000 : ℕ) : ℚ))
            * 195000)).toNat :=
  ⟨by decide, by decide,
    (scale_eq_spec_display 500000 1000000 (by decide) (by decide)).1⟩

/-- C7 (counterexample): the unsaturated redistribution formula
`cache_component = ⌊scaled_total * cached / prompt⌋` is false of the
program: at prompt 30001, cached 4294967295, limit 30002 with scaling on,
the scaled total is 189138, the formula gives 27077148236, but the
float-to-`u32` cast saturates the reported cache component at
`u32::MAX = 4294967295`. -/
theorem redistribution_counterexample :
    ¬((to_claude_usage ⟨some 30001, none, none, some 4294967295⟩ true
        30002).cache_read_input_tokens
      = some (Int.floor ((scale 30001 30002 true : ℚ) * (4294967295 : ℚ)
          / (30001 : ℚ))).toNat) := by
  have hs : scale 30001 30002 true = 189138 := by
    norm_num [scale, SCALING_THRESHOLD, TARGET_MAX, displayRatio]
    rfl
  have hc : (to_claude_usage ⟨some 30001, none, none, some 4294967295⟩ true
      30002).cache_read_input_tokens = some 4294967295 := by
    norm_num [to_claude_usage, hs, U32_MAX, Nat.min_def]
  rw [hc, hs]
  norm_num
  decide

/-- C7 (amended): cache redistribution.  With zero raw prompt tokens the
result is `(scaled_total, None)` and the scaled total is 0 via passthrough;
otherwise the cache component is
`min ⌊scaled_total * cached / prompt⌋ u32::MAX` — the float-to-`u32` cast
saturates at `u32::MAX` — the input component is the (floored-at-zero)
difference, and the cache field is `Some` of the cache component. -/
theorem to_claude_usage_redistribution (m : UsageMetadata) (e : Bool)
    (limit : ℕ) :
    (m.prompt_token_count.getD 0 = 0 →
      (to_claude_usage m e limit).input_tokens = scale 0 limit e ∧
      (to_claude_usage m e limit).cache_read_input_tokens = none ∧
      scale 0 limit e = 0) ∧
    (0 < m.prompt_token_count.getD 0 →
      (to_claude_usage m e limit).cache_read_input_tokens
        = some (min (Int.floor ((scale (m.prompt_token_count.getD 0) limit e : ℚ)
            * (m.cached_content_token_count.getD 0 : ℚ)
            / (m.prompt_token_count.getD 0 : ℚ))).toNat U32_MAX) ∧
      (to_claude_usage m e limit).input_tokens
        = scale (m.prompt_token_count.getD 0) limit e
          - min (Int.floor ((scale (m.prompt_token_count.getD 0) limit e : ℚ)
              * (m.cached_content_token_count.getD 0 : ℚ)
              / (m.prompt_token_count.getD 0 : ℚ))).toNat U32_MAX) := by
  constructor
  · intro h0
    unfold to_claude_usage
    simp only [h0, lt_self_iff_false, if_false]
    refine ⟨by trivial, by trivial, ?_⟩
    exact scale_eq_passthrough
      (Or.inr (by simp only [SCALING_THRESHOLD]; omega))
  · intro hp
    unfold to_claude_usage
    simp only [if_pos hp]
    constructor
    · rw [mul_div_assoc]
    · rw [mul_div_assoc]

/-- C7 witness at prompt 100, cached 40, scaling enabled, limit 1000000
(the positive-prompt conjunct of the applied theorem). -/
theorem to_claude_usage_redistribution_witness :
    0 < ((⟨some 100, some 50, some 150, some 40⟩ :
        UsageMetadata).prompt_token_count.getD 0) ∧
    ((to_claude_usage ⟨some 100, some 50, some 150, some 40⟩ true
        1000000).cache_read_input_tokens
      = some (min (Int.floor ((scale ((⟨some 100, some 50, some 150, some 40⟩ :
            UsageMetadata).prompt_token_count.getD 0) 1000000 true : ℚ)
          * ((⟨some 100, some 50, some 150, some 40⟩ :
            UsageMetadata).cached_content_token_count.getD 0 : ℚ)
          / ((⟨some 100, some 50, some 150, some 40⟩ :
            UsageMetadata).prompt_token_count.getD 0 : ℚ))).toNat U32_MAX) ∧
      (to_claude_usage ⟨some 100, some 50, some 150, some 40⟩ true
          1000000).input_tokens
        = scale ((⟨some 100, some 50, some 150, some 40⟩ :
            UsageMetadata).prompt_token_count.getD 0) 1000000 true
          - min (Int.floor ((scale ((⟨some 100, some 50, some 150, some 40⟩ :
              UsageMetadata).prompt_token_count.getD 0) 1000000 true : ℚ)
            * ((⟨some 100, some 50, some 150, some 40⟩ :
              UsageMetadata).cached_content_token_count.getD 0 : ℚ)
            / ((⟨some 100, some 50, some 150, some 40⟩ :
              UsageMetadata).prompt_token_count.getD 0 : ℚ))).toNat U32_MAX) :=
  ⟨by decide,
    (to_claude_usage_redistribution ⟨some 100, some 50, some 150, some 40⟩
      true 1000000).2 (by decide)⟩

/-- C8: the output field `cache_read_tokens` is `Some` exactly when the raw
prompt token count (defaulted to 0 when absent) is positive, and `None`
exactly when it is zero. -/
theorem to_claude_usage_cache_optionality (m : UsageMetadata) (e : Bool)
    (limit : ℕ) :
    ((to_claude_usage m e limit).cache_read_input_tokens.isSome = true
      ↔ 0 < m.prompt_token_count.getD 0) ∧
    ((to_claude_usage m e limit).cache_read_input_tokens = none
      ↔ m.prompt_token_count.getD 0 = 0) := by
  unfold to_claude_usage
  by_cases hp : 0 < m.prompt_token_count.getD 0
  · simp only [if_pos hp]
    exact ⟨⟨fun _ => hp, fun _ => rfl⟩,
      ⟨fun hn => absurd hn (by simp), fun h0 => absurd h0 (by omega)⟩⟩
  · simp only [if_neg hp]
    have h0 : m.prompt_token_count.getD 0 = 0 := by omega
    exact ⟨⟨fun hs => absurd hs (by simp), fun hlt => absurd hlt hp⟩,
      ⟨fun _ => h0, fun _ => by trivial⟩⟩

/-- C9: the translated output never depends on the raw `total_tokens`
field, and in every output `output_tokens` is the raw output count
(default 0), `cache_creation_tokens` is `Some 0` and `server_tool_use` is
absent. -/
theorem to_claude_usage_fixed_fields (p c t1 t2 cc : Option ℕ) (e : Bool)
    (limit : ℕ) :
    to_claude_usage ⟨p, c, t1, cc⟩ e limit
        = to_claude_usage ⟨p, c, t2, cc⟩ e limit ∧
    (to_claude_usage ⟨p, c, t1, cc⟩ e limit).output_tokens = c.getD 0 ∧
    (to_claude_usage ⟨p, c, t1, cc⟩ e limit).cache_creation_input_tokens
        = some 0 ∧
    (to_claude_usage ⟨p, c, t1, cc⟩ e limit).server_tool_use = none :=
  ⟨rfl, rfl, rfl, rfl⟩

/-- C10: with a zero context limit, scaling enabled and a raw total above
30000, `scale` is still total and returns `⌊0.97 * 195000⌋ = 189150`
(the IEEE division by zero produces `+∞`, which falls into the clamped
fourth segment). -/
theorem scale_zero_context_limit (raw : ℕ) (h : 30000 < raw) :
    scale raw 0 true = 189150 :=
  scale_limit_zero (by simp only [SCALING_THRESHOLD]; omega)

/-- C10 witness at `raw = 30001`. -/
theorem scale_zero_context_limit_witness :
    30000 < 30001 ∧ scale 30001 0 true = 189150 :=
  ⟨by decide, scale_zero_context_limit 30001 (by decide)⟩

/- ------------------------------------------------------------------ -/
/- Concrete evaluations, mirroring the values exercised by the test    -/
/- module at the bottom of utils.rs                                    -/
/- ------------------------------------------------------------------ -/

example : scale 30000 1048576 true = 30000 := by norm_num [scale, SCALING_THRESHOLD]
example : scale 30001 1048576 true = 3347 := by
  norm_num [scale, SCALING_THRESHOLD, TARGET_MAX, displayRatio]
  rfl
example : scale 500000 1000000 true = 58500 := by
  norm_num [scale, SCALING_THRESHOLD, TARGET_MAX, displayRatio]
  rfl
example : scale 1000000 1000000 true = 189150 := by
  norm_num [scale, SCALING_THRESHOLD, TARGET_MAX, displayRatio]
  rfl
example : scale 40000 0 true = 189150 := by
  norm_num [scale, SCALING_THRESHOLD, TARGET_MAX]
  rfl
example : get_context_limit_for_model geminiPro = 2097152 := by decide
example : get_context_limit_for_model geminiFlash = 1048576 := by decide
example : get_context_limit_for_model otherModel = 1048576 := by decide
example :
    (to_claude_usage ⟨some 1, none, none, some 2⟩ false 1000000).input_tokens = 0 := by
  norm_num [to_claude_usage, scale, SCALING_THRESHOLD]
  decide

end AntiBridge
